import Mathlib

/-!
# Verification of the Media-Downloader scheduling and delivery core

A shallow embedding of `src/bot.py` (single source file of the repository).
Pure helpers become Lean functions; the asynchronous scheduler
(`process_queue_for_user`, `queue_download`, `cancel_handler`, the global
`asyncio.Semaphore`) becomes a labelled small-step transition system over an
explicit state; the fallible pipeline `download_media` becomes a function from
an environment describing the outcomes of the external collaborators
(yt-dlp fetch, Telegram document send, the three upload backends) to a result
record; a raised Python exception is modelled as a distinguished outcome.
Machine reals (`time.time()` timestamps) are modelled as rationals; Python
unbounded `int` as `Int`/`Nat`.
-/

/-! ## Utilities (`format_bytes`, bot.py lines 79-88)

`format_bytes` in the source:
```
if not size_bytes or size_bytes <= 0: return "0B"
size_name = ("B", "KB", "MB", "GB", "TB")
i = int(math.log(abs(size_bytes), 1024))
p = 1024 ** i
s = round(size_bytes / p, 2)
return f"{s} {size_name[i]}"
```
`int(math.log(n, 1024))` for a positive integer `n` is modelled by the exact
floor of the real base-1024 logarithm, `Nat.log 1024 n`.  The source computes
it in IEEE doubles, which agrees with the exact floor except in a narrow
window just below `1024 ^ 5`: there the true logarithm is within a rounding
error of 5 and `math.log` returns exactly `5.0` (it does at `1024 ^ 5 - 1`,
`-2` and `-3`), so the program raises `IndexError` although the exact floor
is still 4.  The model therefore overapproximates definedness inside the
window `(1023 * 1024 ^ 4, 1024 ^ 5)`, and no theorem below quantifies into
that window: the totality statement stops at `1023 * 1024 ^ 4`, whose
logarithm is below 5 by about `1.4e-4` — many orders of magnitude beyond any
libm error — and the non-totality counterexample uses `2 ^ 59`, whose
logarithm is 5.9.  At the lower unit boundaries (`1024 ^ k - 1` for `k ≤ 4`)
the float value sits at least `1e-13` below the power, so a float round-up
there cannot occur, and even if the index differed by one it would stay
inside the table.  `size_name[i]` with `i` out of range raises `IndexError`;
a raised exception is modelled as `none`.  `round(x, 2)` is
Python round-half-to-even at two decimals, modelled on rationals by
`pyround2`; the decimal rendering of the resulting number is abstracted by
`toString` on `Rat` (the exact digit string is irrelevant to every claim:
only the `"0B"` case and definedness are at stake). -/

def size_name : List String := ["B", "KB", "MB", "GB", "TB"]

/-- Python `round(q, 2)`: nearest multiple of 1/100, ties to even. -/
def pyround2 (q : ℚ) : ℚ :=
  let m : ℚ := q * 100
  let fl : ℤ := ⌊m⌋
  let frac : ℚ := m - fl
  let r : ℤ :=
    if frac < 1/2 then fl
    else if 1/2 < frac then fl + 1
    else if 2 ∣ fl then fl else fl + 1
  (r : ℚ) / 100

/-- `format_bytes` (bot.py 79-88); `none` models the `IndexError` raised when
the computed unit index falls outside the five-entry `size_name` table. -/
def format_bytes (size_bytes : ℤ) : Option String :=
  if size_bytes ≤ 0 then some "0B"
  else
    let i : ℕ := Nat.log 1024 size_bytes.toNat
    if h : i < size_name.length then
      let p : ℚ := (1024 : ℚ) ^ i
      let s : ℚ := pyround2 ((size_bytes : ℚ) / p)
      some (toString s ++ " " ++ size_name.get ⟨i, h⟩)
    else none

/-! ## Upload fallback chain (`upload_file`, bot.py lines 217-238)

Each backend call either raises (`Except.error`) or returns an optional link;
Python truthiness of the returned link (`if link:`) means `some l` with
`l ≠ ""`.  `uploadRun` additionally records the names of the backends that
were actually invoked, in order, so that "no later backend is tried after a
success" and "no backend is retried" are observable in the model. -/

/-- Outcome of one backend call: an exception, or a returned optional link. -/
def BackendCall : Type := String × Except Unit (Option String)

/-- Truthiness of the link returned by a backend (`if link:`). -/
def linkTruthy : Option String → Bool
  | some l => l ≠ ""
  | none => false

/-- Whether a backend call counts as a success for the chain. -/
def callSucceeds (b : BackendCall) : Bool :=
  match b.2 with
  | .ok r => linkTruthy r
  | .error _ => false

/-- The loop of `upload_file` (bot.py 224-238), instrumented with the list of
invoked backend names.  On `.ok r` with truthy `r` it returns `r`
immediately; on a falsy result or an exception it logs and continues; after
the list is exhausted it returns `none`. -/
def uploadRun : List BackendCall → Option String × List String
  | [] => (none, [])
  | (nm, .ok r) :: rest =>
    if linkTruthy r then (r, [nm])
    else
      let t := uploadRun rest
      (t.1, nm :: t.2)
  | (nm, .error _) :: rest =>
    let t := uploadRun rest
    (t.1, nm :: t.2)

/-- `upload_file` (bot.py 217-238): the link result of the chain. -/
def upload_file (backends : List BackendCall) : Option String :=
  (uploadRun backends).1

/-- The fixed configured backend order (bot.py 219-223), with outcomes
supplied by the environment. -/
def uploaderNames : List String := ["GoFile", "File.io", "Transfer.sh"]

/-! ## Progress reporter (`ProgressManager`, bot.py lines 127-176)

The manager state is the triple of mutable fields relevant to suppression:
`self.message` (whether a progress message exists), `self.last_update_text`,
`self.last_update_time`.  Timestamps (`time.time()`) are rationals.  Each
operation returns the new state paired with a `Bool` telling whether an edit
or send was actually issued to the notification frontend. -/

structure PMState where
  hasMessage : Bool
  last_update_text : String
  last_update_time : ℚ
deriving DecidableEq

/-- Fresh manager after `__init__` (bot.py 129-135): no message yet,
`last_update_text = ""`, `last_update_time = 0`. -/
def pmInit : PMState := ⟨false, "", 0⟩

/-- `send_initial_message` (bot.py 137-144): sends unconditionally and
records the sent text; `last_update_time` is not touched. -/
def send_initial_message (s : PMState) (text : String) : PMState × Bool :=
  ({ hasMessage := true, last_update_text := text,
     last_update_time := s.last_update_time }, true)

/-- `_update_message_threadsafe` (bot.py 146-156), the path driven by the
yt-dlp progress hook: edits only when a message exists, the text changed and
strictly more than 1.5 seconds elapsed since the last recorded send. -/
def update_message_threadsafe (s : PMState) (text : String) (now : ℚ) :
    PMState × Bool :=
  if s.hasMessage = true ∧ text ≠ s.last_update_text ∧
      now - s.last_update_time > 3/2 then
    ({ hasMessage := true, last_update_text := text, last_update_time := now },
     true)
  else (s, false)

/-- `ProgressManager.update` (bot.py 158-167), the path used by the pipeline
itself for stage transitions and terminal reports: edits whenever a message
exists and the text changed — no time condition, and `last_update_time` is
not updated. -/
def progress_update (s : PMState) (text : String) : PMState × Bool :=
  if s.hasMessage = true ∧ text ≠ s.last_update_text then
    ({ hasMessage := true, last_update_text := text,
       last_update_time := s.last_update_time }, true)
  else (s, false)

/-! ## Queue persistence (`save_queue_to_disk` / `load_queue_from_disk`,
bot.py lines 195-213)

`DOWNLOAD_QUEUE` maps owner-id strings to ordered lists of task dicts with
the fixed shape built by `queue_download` (bot.py 306-312): `chat_id` (int),
`url`, `format_choice` (strings), `quality_id`, `custom_filename` (string or
`None`).  Python dicts preserve insertion order, so the map is an ordered
association list.  `json.dump`/`json.load` are modelled at the level of JSON
values (`JVal`); `str(k)` applied to the already-string keys on both the save
and the load path is the identity `pyStr`. -/

inductive JVal
  | jnull
  | jint (n : ℤ)
  | jstr (s : String)
  | jarr (xs : List JVal)
  | jobj (kvs : List (String × JVal))

/-- Task record appended by `queue_download` (bot.py 306-312). -/
structure QTask where
  chat_id : ℤ
  url : String
  format_choice : String
  quality_id : Option String
  custom_filename : Option String
deriving DecidableEq

/-- Python `str` on a key that is already a string. -/
def pyStr (s : String) : String := s

def optStrToJson : Option String → JVal
  | none => .jnull
  | some s => .jstr s

def optStrOfJson : JVal → Option (Option String)
  | .jnull => some none
  | .jstr s => some (some s)
  | _ => none

/-- JSON encoding of one task dict, field order as built in the source. -/
def taskToJson (t : QTask) : JVal :=
  .jobj [("chat_id", .jint t.chat_id), ("url", .jstr t.url),
         ("format_choice", .jstr t.format_choice),
         ("quality_id", optStrToJson t.quality_id),
         ("custom_filename", optStrToJson t.custom_filename)]

/-- JSON decoding of one task dict. -/
def taskOfJson : JVal → Option QTask
  | .jobj [("chat_id", .jint c), ("url", .jstr u), ("format_choice", .jstr f),
           ("quality_id", q), ("custom_filename", n)] =>
    match optStrOfJson q, optStrOfJson n with
    | some q2, some n2 => some ⟨c, u, f, q2, n2⟩
    | _, _ => none
  | _ => none

def tasksOfJson : List JVal → Option (List QTask)
  | [] => some []
  | j :: rest =>
    match taskOfJson j, tasksOfJson rest with
    | some t, some ts => some (t :: ts)
    | _, _ => none

/-- `save_queue_to_disk` (bot.py 195-201): the JSON value written to
`queue.json` — `{str(k): v for k, v in DOWNLOAD_QUEUE.items()}`. -/
def save_queue_to_disk (q : List (String × List QTask)) : JVal :=
  .jobj (q.map fun kv => (pyStr kv.1, .jarr (kv.2.map taskToJson)))

def loadEntries : List (String × JVal) → Option (List (String × List QTask))
  | [] => some []
  | (k, .jarr js) :: rest =>
    match tasksOfJson js, loadEntries rest with
    | some ts, some qs => some ((pyStr k, ts) :: qs)
    | _, _ => none
  | _ => none

/-- `load_queue_from_disk` (bot.py 203-213): parse the stored JSON value back
into the queue map — `{str(k): v for k, v in json.load(f).items()}`. -/
def load_queue_from_disk : JVal → Option (List (String × List QTask))
  | .jobj kvs => loadEntries kvs
  | _ => none

/-! ## Download pipeline (`download_media`, bot.py lines 498-613)

The external collaborators are abstracted into an environment:
`fetch` is the outcome of the `yt_dlp` download call plus the file checks
(bot.py 539-578): an exception from `extract_info`, a falsy `info_dict`, or a
produced path whose existence and `st_size` are given; `directSendOk` says
whether `bot.send_document` (bot.py 584) completes without raising;
`backends` gives the three uploaders their outcomes.  The body result records
the user-visible report, whether the direct Telegram send was attempted, the
remote backends actually invoked, and whether the artifact file is on disk
when the `try` body or an `except` arm finishes; `download_media` then applies
the `finally` block (bot.py 609-613), which unlinks the file iff it exists. -/

inductive FetchOutcome
  | raises
  | noInfo
  | produced (onDisk : Bool) (size : ℕ)

structure PipelineEnv where
  fetch : FetchOutcome
  directSendOk : Bool
  backends : List BackendCall

inductive Report
  | sentDocument
  | remoteSuccess (link : String)
  | allUploadsFailed
  | downloadFailed (why : String)
  | criticalError
deriving DecidableEq

structure RunResult where
  report : Report
  directAttempted : Bool
  invokedBackends : List String
  fileExistsAfter : Bool
deriving DecidableEq

/-- bot.py line 60. -/
def TELEGRAM_SAFE_MAX_BYTES : ℕ := 49 * 1024 * 1024

/-- The `try` body of `download_media` together with its `except` arms
(bot.py 505-608), before the `finally` block runs.  The last component is
whether the artifact file exists at that point. -/
def download_media_body (env : PipelineEnv) : RunResult :=
  match env.fetch with
  | .raises =>
    ⟨.downloadFailed "DownloadError", false, [], false⟩
  | .noInfo =>
    ⟨.downloadFailed "yt-dlp failed to return media information", false, [],
     false⟩
  | .produced onDisk size =>
    if onDisk = false then
      ⟨.downloadFailed "File not found at expected path after download",
       false, [], false⟩
    else if size < 1024 then
      ⟨.downloadFailed "Downloaded file is suspiciously small", false, [],
       true⟩
    else if size ≤ TELEGRAM_SAFE_MAX_BYTES then
      if env.directSendOk then ⟨.sentDocument, true, [], true⟩
      else ⟨.criticalError, true, [], true⟩
    else
      let t := uploadRun env.backends
      match t.1 with
      | some link => ⟨.remoteSuccess link, false, t.2, true⟩
      | none => ⟨.allUploadsFailed, false, t.2, true⟩

/-- `download_media` (bot.py 498-613): the body followed by the `finally`
cleanup `if final_path and final_path.exists(): final_path.unlink()`. -/
def download_media (env : PipelineEnv) : RunResult :=
  let b := download_media_body env
  { b with fileExistsAfter := if b.fileExistsAfter then false
                              else b.fileExistsAfter }

/-! ## Scheduler (`DOWNLOAD_QUEUE`, `process_queue_for_user`,
`queue_download`, `cancel_handler`, `DOWNLOAD_SEMAPHORE`;
bot.py lines 61, 66-67, 286-334, 478-494)

`DOWNLOAD_QUEUE` is an insertion-ordered dict from owner-id strings to lists
of tasks; tasks are identified here by a number.  Each running
`process_queue_for_user` coroutine is one entry in `loops`, with a phase:

* `atHead`      — at the `while DOWNLOAD_QUEUE.get(user_id)` check;
* `waitSem t`   — popped task `t` (queue already saved), blocked on
                  `DOWNLOAD_SEMAPHORE.acquire` (entering `async with`);
* `inPipeline t`— holding one semaphore slot, `download_media` executing;
* `sleeping`    — slot released, inside `asyncio.sleep(1)`.

`sem` is the semaphore counter, initially
`GLOBAL_MAX_CONCURRENT_DOWNLOADS = 3` (bot.py 61, 67); `acquire` requires a
free permit, the end of the `async with` returns it. -/

def GLOBAL_MAX_CONCURRENT_DOWNLOADS : ℕ := 3

/-- `dict.get` on the insertion-ordered queue map. -/
def qlookup {α : Type} : List (String × α) → String → Option α
  | [], _ => none
  | kv :: rest, o => if kv.1 = o then some kv.2 else qlookup rest o

/-- `dict[k] = v`: update in place, or append a new key at the end. -/
def qset {α : Type} : List (String × α) → String → α → List (String × α)
  | [], o, v => [(o, v)]
  | kv :: rest, o, v =>
    if kv.1 = o then (kv.1, v) :: rest else kv :: qset rest o v

/-- Truthiness of `DOWNLOAD_QUEUE.get(user_id)`: present and non-empty. -/
def qtruthy {α : Type} (q : List (String × List α)) (o : String) : Bool :=
  match qlookup q o with
  | some (_ :: _) => true
  | _ => false

/-- `ConversationHandler.END`, the value `cancel_handler` returns. -/
def conversationEnd : ℤ := -1

/-- `cancel_handler` (bot.py 478-494), on the queue map: if the owner has a
non-empty list it is cleared **in place** (the key stays, now mapping to
`[]`) and a fixed confirmation is sent; otherwise nothing changes.  The
handler returns `ConversationHandler.END` on every path — no count. -/
def cancel_handler {α : Type} (q : List (String × List α)) (o : String) :
    List (String × List α) × String × ℤ :=
  match qlookup q o with
  | some (_ :: _) =>
    (qset q o [], "Your download queue has been cleared.", conversationEnd)
  | _ => (q, "Your queue is already empty.", conversationEnd)

inductive Phase
  | atHead
  | waitSem (t : ℕ)
  | inPipeline (t : ℕ)
  | sleeping
deriving DecidableEq

structure SchedState where
  queue : List (String × List ℕ)
  loops : List (String × Phase)
  sem : ℕ
deriving DecidableEq

/-- Whether a loop entry is currently executing the pipeline (holding a
semaphore slot). -/
def isRunning : String × Phase → Bool
  | (_, .inPipeline _) => true
  | _ => false

/-- Number of loops currently executing the pipeline (holding a slot). -/
def countRunning (loops : List (String × Phase)) : ℕ :=
  loops.countP isRunning

/-- Number of loops of one owner currently executing the pipeline. -/
def ownerRunning (loops : List (String × Phase)) (o : String) : ℕ :=
  loops.countP fun l => l.1 == o && isRunning l

inductive Act
  | submit (o : String) (t : ℕ)
  | pop (o : String)
  | exitLoop (o : String)
  | acquire (o : String)
  | finish (o : String)
  | wake (o : String)
  | cancel (o : String)

/-- One interleaving step of the bot.  `submit` is `queue_download`
(bot.py 303-334): append the task (creating the entry if absent) and spawn a
new `process_queue_for_user` coroutine iff the list length is now 1 — the
source's `len(DOWNLOAD_QUEUE[user_id_str]) == 1` test.  `pop`, `exitLoop`,
`acquire`, `finish`, `wake` are the points of `process_queue_for_user`
(bot.py 286-301) at which the event loop can switch coroutines; `cancel` is
`cancel_handler`. -/
inductive Step : Act → SchedState → SchedState → Prop
  | submit (o : String) (t : ℕ) (q : List (String × List ℕ))
      (loops : List (String × Phase)) (sem : ℕ)
      (q2 : List (String × List ℕ)) (loops2 : List (String × Phase))
      (hq : q2 = qset q o (((qlookup q o).getD []) ++ [t]))
      (hl : loops2 =
        if (((qlookup q o).getD []) ++ [t]).length = 1 then
          loops ++ [(o, .atHead)]
        else loops) :
      Step (.submit o t) ⟨q, loops, sem⟩ ⟨q2, loops2, sem⟩
  | pop (o : String) (t : ℕ) (rest : List ℕ) (q : List (String × List ℕ))
      (l1 l2 : List (String × Phase)) (sem : ℕ)
      (hq : qlookup q o = some (t :: rest)) :
      Step (.pop o) ⟨q, l1 ++ (o, .atHead) :: l2, sem⟩
        ⟨qset q o rest, l1 ++ (o, .waitSem t) :: l2, sem⟩
  | exitLoop (o : String) (q : List (String × List ℕ))
      (l1 l2 : List (String × Phase)) (sem : ℕ)
      (hq : qtruthy q o = false) :
      Step (.exitLoop o) ⟨q, l1 ++ (o, .atHead) :: l2, sem⟩ ⟨q, l1 ++ l2, sem⟩
  | acquire (o : String) (t : ℕ) (q : List (String × List ℕ))
      (l1 l2 : List (String × Phase)) (sem : ℕ)
      (hs : 0 < sem) :
      Step (.acquire o) ⟨q, l1 ++ (o, .waitSem t) :: l2, sem⟩
        ⟨q, l1 ++ (o, .inPipeline t) :: l2, sem - 1⟩
  | finish (o : String) (t : ℕ) (q : List (String × List ℕ))
      (l1 l2 : List (String × Phase)) (sem : ℕ) :
      Step (.finish o) ⟨q, l1 ++ (o, .inPipeline t) :: l2, sem⟩
        ⟨q, l1 ++ (o, .sleeping) :: l2, sem + 1⟩
  | wake (o : String) (q : List (String × List ℕ))
      (l1 l2 : List (String × Phase)) (sem : ℕ) :
      Step (.wake o) ⟨q, l1 ++ (o, .sleeping) :: l2, sem⟩
        ⟨q, l1 ++ (o, .atHead) :: l2, sem⟩
  | cancel (o : String) (q : List (String × List ℕ))
      (loops : List (String × Phase)) (sem : ℕ) :
      Step (.cancel o) ⟨q, loops, sem⟩ ⟨(cancel_handler q o).1, loops, sem⟩

/-- The state at process start: empty queue map, no loops, all permits free
(startup with no persisted queue). -/
def initState : SchedState := ⟨[], [], GLOBAL_MAX_CONCURRENT_DOWNLOADS⟩

/-- States reachable by any interleaving of submissions, loop progress and
cancellations. -/
inductive Reachable : SchedState → Prop
  | init : Reachable initState
  | step {s s2 : SchedState} {a : Act} (h : Reachable s) (hs : Step a s s2) :
      Reachable s2

/-! ## Remaining definitions used by the theorems below -/

/-- The optional link a backend call returned (meaningful when the call did
not raise). -/
def callLink (b : BackendCall) : Option String :=
  match b.2 with
  | .ok r => r
  | .error _ => none

/-- A concrete backend list: GoFile raises, File.io succeeds with a link,
Transfer.sh would also succeed but must never be reached. -/
def demoBackends : List BackendCall :=
  [("GoFile", .error ()), ("File.io", .ok (some "L")),
   ("Transfer.sh", .ok (some "M"))]

/-- A 10 MB artifact (under the 49 MB direct-channel limit) whose direct
Telegram send raises, with all three remote backends available. -/
def smallFailEnv : PipelineEnv :=
  ⟨.produced true (10 * 1024 * 1024), false,
   [("GoFile", .ok (some "G")), ("File.io", .ok (some "F")),
    ("Transfer.sh", .ok (some "T"))]⟩

/-- Scheduler state in which owner `"u"` has two tasks simultaneously inside
the pipeline: task 1 and task 2 both `inPipeline`, one semaphore permit
still free, queue entry drained. -/
def badState : SchedState :=
  ⟨[("u", [])], [("u", .inPipeline 1), ("u", .inPipeline 2)], 1⟩

/-- Scheduler state right after owner `"u"` had its only task popped: the
queue entry became empty but is still present in the map. -/
def drainedState : SchedState := ⟨[("u", [])], [("u", .waitSem 1)], 3⟩

/-! ## Theorems -/

/-- Helper: the chain result is `none` exactly when every backend fails. -/
theorem uploadRun_none_iff (bs : List BackendCall) :
    (uploadRun bs).1 = none ↔ ∀ b ∈ bs, callSucceeds b = false := by
  induction bs with
  | nil => simp [uploadRun]
  | cons b rest ih =>
    obtain ⟨nm, e⟩ := b
    cases e with
    | ok r =>
      by_cases hr : linkTruthy r = true
      · have hs : r ≠ none := by
          cases r with
          | none => simp [linkTruthy] at hr
          | some l => simp
        simp [uploadRun, hr, callSucceeds, hs]
      · simp only [Bool.not_eq_true] at hr
        simp [uploadRun, hr, callSucceeds, ih]
    | error u =>
      simp [uploadRun, callSucceeds, ih]

/-- Helper: the chain stops at the first succeeding backend, invoking exactly
the backends up to and including it. -/
theorem uploadRun_first_success (pre : List BackendCall) (b : BackendCall)
    (post : List BackendCall)
    (hpre : ∀ b2 ∈ pre, callSucceeds b2 = false)
    (hb : callSucceeds b = true) :
    uploadRun (pre ++ b :: post) = (callLink b, (pre ++ [b]).map Prod.fst) := by
  induction pre with
  | nil =>
    obtain ⟨nm, e⟩ := b
    cases e with
    | ok r =>
      have hr : linkTruthy r = true := by simpa [callSucceeds] using hb
      simp [uploadRun, hr, callLink]
    | error u => simp [callSucceeds] at hb
  | cons p pre2 ih =>
    have hp : callSucceeds p = false := hpre p (by simp)
    have hrest : ∀ b2 ∈ pre2, callSucceeds b2 = false := by
      intro b2 hb2; exact hpre b2 (by simp [hb2])
    have ih2 := ih hrest
    obtain ⟨nm, e⟩ := p
    cases e with
    | ok r =>
      have hr : linkTruthy r = false := by simpa [callSucceeds] using hp
      simp [uploadRun, hr, ih2]
    | error u =>
      simp [uploadRun, ih2]

/-- C3.  `upload_file` (bot.py 217-238) tries the backends in the given
order; it returns the first truthy link as soon as one backend succeeds,
invoking exactly the backends up to and including that one (so no later
backend is contacted and no backend is retried); it returns `None` exactly
when every backend in the list fails (raises or yields a falsy link). -/
theorem spec_C3_upload_fallback (bs : List BackendCall) :
    (upload_file bs = none ↔ ∀ b ∈ bs, callSucceeds b = false)
    ∧ (∀ pre b post, bs = pre ++ b :: post →
        (∀ b2 ∈ pre, callSucceeds b2 = false) → callSucceeds b = true →
        uploadRun bs = (callLink b, (pre ++ [b]).map Prod.fst)) := by
  constructor
  · exact uploadRun_none_iff bs
  · intro pre b post hsplit hpre hb
    rw [hsplit]
    exact uploadRun_first_success pre b post hpre hb

/-- C3 witness: with GoFile raising, File.io succeeding with link `"L"` and
Transfer.sh also able to succeed, the chain returns `"L"` and Transfer.sh is
never invoked. -/
theorem spec_C3_witness :
    uploadRun demoBackends = (some "L", ["GoFile", "File.io"]) := by
  have h := (spec_C3_upload_fallback demoBackends).2
    [("GoFile", Except.error ())] ("File.io", Except.ok (some "L"))
    [("Transfer.sh", Except.ok (some "M"))] rfl (by decide) (by decide)
  exact h.trans (by decide)

/-- C4.  For every task whose pipeline reaches the delivery attempt (the
fetch produced an on-disk artifact of plausible size, bot.py 571-578), the
artifact is still on disk when the `try`/`except` body of `download_media`
finishes — on direct-channel success, direct-channel failure, remote-backend
success and exhausted remote failure alike — and the `finally` block
(bot.py 609-613) then deletes it, so no artifact remains afterwards. -/
theorem spec_C4_cleanup (env : PipelineEnv) (size : ℕ)
    (hf : env.fetch = .produced true size) (hv : 1024 ≤ size) :
    (download_media_body env).fileExistsAfter = true
    ∧ (download_media env).fileExistsAfter = false := by
  obtain ⟨fetch, direct, backends⟩ := env
  simp only at hf
  subst hf
  have hlt : ¬ size < 1024 := by omega
  by_cases hle : size ≤ TELEGRAM_SAFE_MAX_BYTES
  · cases direct <;>
      simp [download_media, download_media_body, hlt, hle]
  · rcases hup : (uploadRun backends).1 with _ | link <;>
      simp [download_media, download_media_body, hlt, hle, hup]

/-- C4 witness: a 2 KB artifact delivered through the direct channel is on
disk at the end of the body and gone after the cleanup. -/
theorem spec_C4_witness :
    (download_media_body ⟨.produced true 2048, true, []⟩).fileExistsAfter
      = true
    ∧ (download_media ⟨.produced true 2048, true, []⟩).fileExistsAfter
      = false :=
  spec_C4_cleanup ⟨.produced true 2048, true, []⟩ 2048 rfl (by norm_num)

/-- C5 counterexample.  The claim says the remote-backend chain is invoked
exactly when the artifact is over the limit **or the direct attempt fails**.
In the code a failing `bot.send_document` (bot.py 584) raises into the
generic `except Exception` arm (bot.py 602-608): for a 10 MB artifact (under
the 49 MB limit) whose direct send fails, no remote backend is ever invoked
and the task ends with the critical-error report even though all three
backends would have succeeded. -/
theorem spec_C5_counterexample :
    10 * 1024 * 1024 ≤ TELEGRAM_SAFE_MAX_BYTES
    ∧ smallFailEnv.directSendOk = false
    ∧ (download_media smallFailEnv).invokedBackends = []
    ∧ (download_media smallFailEnv).report = .criticalError := by
  refine ⟨by norm_num [TELEGRAM_SAFE_MAX_BYTES], rfl, ?_, ?_⟩ <;> rfl

/-- C5 as amended: for every artifact that passes validation, if its size is
at most the direct-channel limit the pipeline attempts the frontend
document-send and never invokes a remote backend — succeeding when the send
succeeds, otherwise failing the task without any fallback; the remote chain
is invoked exactly when the artifact is over the limit. -/
theorem spec_C5_amended (env : PipelineEnv) (size : ℕ)
    (hf : env.fetch = .produced true size) (hv : 1024 ≤ size) :
    (size ≤ TELEGRAM_SAFE_MAX_BYTES →
       (download_media env).directAttempted = true
       ∧ (download_media env).invokedBackends = []
       ∧ (env.directSendOk = true →
            (download_media env).report = .sentDocument)
       ∧ (env.directSendOk = false →
            (download_media env).report = .criticalError))
    ∧ (TELEGRAM_SAFE_MAX_BYTES < size →
       (download_media env).directAttempted = false
       ∧ (download_media env).invokedBackends = (uploadRun env.backends).2) := by
  obtain ⟨fetch, direct, backends⟩ := env
  simp only at hf
  subst hf
  have hlt : ¬ size < 1024 := by omega
  constructor
  · intro hle
    cases direct <;>
      simp [download_media, download_media_body, hlt, hle]
  · intro hgt
    have hle : ¬ size ≤ TELEGRAM_SAFE_MAX_BYTES := by omega
    rcases hup : (uploadRun backends).1 with _ | link <;>
      simp [download_media, download_media_body, hlt, hle, hup]

/-- C5 witness: a valid 2 KB artifact with a working direct channel is sent
as a document and no remote backend is invoked. -/
theorem spec_C5_witness :
    (download_media ⟨.produced true 2048, true, demoBackends⟩).directAttempted
      = true
    ∧ (download_media ⟨.produced true 2048, true,
        demoBackends⟩).invokedBackends = []
    ∧ (download_media ⟨.produced true 2048, true, demoBackends⟩).report
      = .sentDocument := by
  have h := (spec_C5_amended ⟨.produced true 2048, true, demoBackends⟩ 2048
    rfl (by norm_num)).1 (by norm_num [TELEGRAM_SAFE_MAX_BYTES])
  exact ⟨h.1, h.2.1, h.2.2.1 rfl⟩

/-- Helper: `qlookup` after `qset` at the written key. -/
theorem qlookup_qset_self {α : Type} (q : List (String × α)) (o : String)
    (v : α) : qlookup (qset q o v) o = some v := by
  induction q with
  | nil => simp [qset, qlookup]
  | cons kv rest ih =>
    by_cases h : kv.1 = o
    · simp [qset, qlookup, h]
    · simp [qset, qlookup, h, ih]

/-- Helper: `qlookup` after `qset` at any other key. -/
theorem qlookup_qset_ne {α : Type} (q : List (String × α)) (o o2 : String)
    (v : α) (h : o2 ≠ o) : qlookup (qset q o v) o2 = qlookup q o2 := by
  have h2 : ¬ o = o2 := fun he => h he.symm
  induction q with
  | nil => simp [qset, qlookup, h2]
  | cons kv rest ih =>
    by_cases hk : kv.1 = o
    · have hk2 : ¬ kv.1 = o2 := by rw [hk]; exact h2
      simp [qset, qlookup, hk, hk2, h2]
    · simp [qset, qlookup, hk, ih]

/-- C6 counterexample.  The claim says `Cancel(ownerId)` returns the count of
tasks cleared.  `cancel_handler` (bot.py 478-494) returns the constant
`ConversationHandler.END` on every path and sends a fixed confirmation text:
its entire output on a two-task queue is identical to its output on a
three-task queue, so the count (here 2) is neither returned nor reported. -/
theorem spec_C6_counterexample :
    (cancel_handler [("7", [1, 2])] "7").2.2 = conversationEnd
    ∧ (cancel_handler [("7", [1, 2])] "7").2
      = (cancel_handler [("7", [1, 2, 3])] "7").2
    ∧ conversationEnd ≠ (2 : ℤ) := by
  refine ⟨rfl, rfl, by norm_num [conversationEnd]⟩

/-- C6 as amended: `cancel_handler` empties the owner's queued list (the
entry itself stays in the map, now empty), leaves every other owner's entry
untouched, never changes the running loops or the semaphore (a task already
admitted into the pool is unaffected), and returns the conversation-end
sentinel together with a fixed confirmation text rather than the count. -/
theorem spec_C6_amended {α : Type} (q : List (String × List α)) (o : String) :
    (∀ o2, o2 ≠ o →
       qlookup (cancel_handler q o).1 o2 = qlookup q o2)
    ∧ (∀ x xs, qlookup q o = some (x :: xs) →
       qlookup (cancel_handler q o).1 o = some [])
    ∧ (cancel_handler q o).2.2 = conversationEnd
    ∧ (∀ s s2 : SchedState, Step (.cancel o) s s2 →
       s2.loops = s.loops ∧ s2.sem = s.sem) := by
  refine ⟨?_, ?_, ?_, ?_⟩
  · intro o2 h2
    unfold cancel_handler
    split
    · exact qlookup_qset_ne q o o2 [] h2
    · rfl
  · intro x xs hx
    unfold cancel_handler
    split
    · exact qlookup_qset_self q o []
    · rename_i hne
      rw [hx] at hne
      exact absurd rfl (hne x xs)
  · unfold cancel_handler
    split <;> rfl
  · intro s s2 hstep
    cases hstep
    exact ⟨rfl, rfl⟩

/-- C6 witness: on the map `{7: [1], 8: [2]}`, cancelling owner `7` leaves
owner `8` untouched, empties (but keeps) the entry of `7`, returns the END
sentinel, and a concrete cancel step leaves the loop list unchanged. -/
theorem spec_C6_witness :
    qlookup (cancel_handler [("7", [1]), ("8", [2])] "7").1 "8" = some [2]
    ∧ qlookup (cancel_handler [("7", [1]), ("8", [2])] "7").1 "7" = some []
    ∧ (cancel_handler [("7", [1]), ("8", [2])] "7").2.2 = conversationEnd
    ∧ (SchedState.mk (cancel_handler [("7", [1])] "7").1
        [("7", Phase.inPipeline 5)] 2).loops = [("7", Phase.inPipeline 5)] := by
  have h := spec_C6_amended [("7", [1]), ("8", [2])] "7"
  refine ⟨(h.1 "8" (by decide)).trans (by decide), h.2.1 1 [] (by decide),
    h.2.2.1, ?_⟩
  have h2 := (spec_C6_amended [("7", [1])] "7").2.2.2
    ⟨[("7", [1])], [("7", Phase.inPipeline 5)], 2⟩
    ⟨(cancel_handler [("7", [1])] "7").1, [("7", Phase.inPipeline 5)], 2⟩
    (Step.cancel "7" [("7", [1])] [("7", Phase.inPipeline 5)] 2)
  exact h2.1

/-- Helper: decoding inverts encoding for one task dict. -/
theorem taskOfJson_taskToJson (t : QTask) :
    taskOfJson (taskToJson t) = some t := by
  obtain ⟨c, u, f, qid, nm⟩ := t
  cases qid <;> cases nm <;>
    simp [taskToJson, taskOfJson, optStrToJson, optStrOfJson]

/-- Helper: decoding inverts encoding for a task list. -/
theorem tasksOfJson_map (ts : List QTask) :
    tasksOfJson (ts.map taskToJson) = some ts := by
  induction ts with
  | nil => rfl
  | cons t rest ih => simp [tasksOfJson, taskOfJson_taskToJson, ih]

/-- C7.  Serializing the per-owner queue map with `save_queue_to_disk`
(bot.py 195-201) and parsing it back with `load_queue_from_disk`
(bot.py 203-213) restores exactly the same owners in the same order, each
with the same ordered task list — round-trip fidelity of the persistence
adapter for the state it saves (tasks already popped are, by construction,
not part of that state). -/
theorem spec_C7_roundtrip (q : List (String × List QTask)) :
    load_queue_from_disk (save_queue_to_disk q) = some q := by
  induction q with
  | nil => rfl
  | cons kv rest ih =>
    obtain ⟨k, ts⟩ := kv
    have ih2 : loadEntries (rest.map fun kv =>
        (pyStr kv.1, JVal.jarr (kv.2.map taskToJson))) = some rest := ih
    simp only [pyStr] at ih2
    simp [save_queue_to_disk, load_queue_from_disk, loadEntries,
      tasksOfJson_map, ih2, pyStr]

/-- C8 counterexample.  The claim says every non-first, non-terminal update
is suppressed unless the text differs **and** the minimum interval elapsed.
`ProgressManager.update` (bot.py 158-167) — the path taken by every
stage-transition update such as the "Uploading to GoFile..." messages
(bot.py 225, 582, 586), none of which is first or terminal — has no time
check at all: with a progress message present, last text `"A"` last sent at
time 100, an update with different text at the same instant 100 (zero
elapsed, interval not respected) is sent. -/
theorem spec_C8_counterexample :
    (progress_update ⟨true, "A", 100⟩ "B").2 = true
    ∧ ¬ ((100 : ℚ) - 100 > 3/2) := by
  constructor
  · simp [progress_update]
  · norm_num

/-- C8 as amended: the interval throttle governs only the fetch-callback
path — `_update_message_threadsafe` sends iff a message exists, the text
differs and strictly more than 1.5 time units elapsed; the pipeline's own
update path (stage transitions and terminal reports) sends iff a message
exists and the text differs, with no interval condition; the initial send
always happens. -/
theorem spec_C8_amended (s : PMState) (text : String) (now : ℚ) :
    ((update_message_threadsafe s text now).2 = true ↔
       (s.hasMessage = true ∧ text ≠ s.last_update_text ∧
         now - s.last_update_time > 3/2))
    ∧ ((progress_update s text).2 = true ↔
       (s.hasMessage = true ∧ text ≠ s.last_update_text))
    ∧ (send_initial_message s text).2 = true := by
  refine ⟨?_, ?_, rfl⟩
  · unfold update_message_threadsafe
    split
    · rename_i hcond
      exact ⟨fun _ => hcond, fun _ => rfl⟩
    · rename_i hcond
      exact ⟨fun hfalse => absurd hfalse (by simp), fun hc => absurd hc hcond⟩
  · unfold progress_update
    split
    · rename_i hcond
      exact ⟨fun _ => hcond, fun _ => rfl⟩
    · rename_i hcond
      exact ⟨fun hfalse => absurd hfalse (by simp), fun hc => absurd hc hcond⟩

/-- C10 counterexample.  The claim says `format_bytes` is total and its unit
index always stays within the five-entry table.  For the positive input
`2 ^ 59` (512 pebibytes) the computed index is
`int(math.log(2 ^ 59, 1024)) = 5`, one past the last table entry `"TB"`, so
`size_name[5]` raises `IndexError` — modelled as the `none` result. -/
theorem spec_C10_counterexample : format_bytes ((2 : ℤ) ^ 59) = none := by
  have htn : ((2 : ℤ) ^ 59).toNat = 2 ^ 59 := rfl
  have hlog : Nat.log 1024 (((2 : ℤ) ^ 59).toNat) = 5 := by
    rw [htn]
    exact Nat.log_eq_of_pow_le_of_lt_pow (by norm_num) (by norm_num)
  have hpos : ¬ ((2 : ℤ) ^ 59 ≤ 0) := by norm_num
  simp only [format_bytes, if_neg hpos, hlog]
  rw [dif_neg (by simp [size_name])]

/-- C10 as amended: every zero or negative input yields `"0B"`, and for
every positive input up to `1023 * 1024 ^ 4` (~1.12 PB) the computed unit
index stays inside the five-entry table and the function returns a string;
from a few units below `1024 ^ 5` onwards the float index reaches 5, the
table is overrun and the call raises (the exact onset inside the last
`1024 ^ 4`-wide band depends on float rounding and is left unspecified). -/
theorem spec_C10_amended (n : ℤ) :
    (n ≤ 0 → format_bytes n = some "0B")
    ∧ (0 < n → n ≤ 1023 * 1024 ^ 4 → (format_bytes n).isSome = true) := by
  constructor
  · intro h
    simp [format_bytes, h]
  · intro hpos hle
    have hlt : n < 1024 ^ 5 := lt_of_le_of_lt hle (by norm_num)
    have hn0 : n.toNat ≠ 0 := by omega
    have htn : n.toNat < 1024 ^ 5 := by omega
    have hlog : Nat.log 1024 n.toNat < 5 :=
      Nat.log_lt_of_lt_pow hn0 htn
    have hnle : ¬ (n ≤ 0) := by omega
    simp only [format_bytes, if_neg hnle]
    rw [dif_pos (by simpa [size_name] using hlog)]
    rfl

/-- C10 witness: `-3` renders as `"0B"`; `2048` (2 KB, index 1) succeeds. -/
theorem spec_C10_witness :
    format_bytes (-3) = some "0B"
    ∧ (format_bytes 2048).isSome = true :=
  ⟨(spec_C10_amended (-3)).1 (by norm_num),
   (spec_C10_amended 2048).2 (by norm_num) (by norm_num)⟩

/-!
The safe domain `n ≤ 1023 * 1024 ^ 4` above keeps a full band of margin to
`1024 ^ 5`: its base-1024 logarithm is `5 - log 1024 (1024 / 1023)`, about
`1.4e-4` under 5, while the double computation of `math.log` is accurate to
well under `1e-12`, so `int(...)` is at most 4 for every input the theorem
covers; only within a few units of `1024 ^ 5` itself can the float hit `5.0`
early, which is why that last band is excluded rather than split exactly.
-/

/-- Helper: the semaphore permits plus the held slots always total the
configured capacity — one slot is held exactly while a loop is inside the
`async with DOWNLOAD_SEMAPHORE` block, and every exit path returns it. -/
theorem sched_invariant {s : SchedState} (h : Reachable s) :
    s.sem + countRunning s.loops = GLOBAL_MAX_CONCURRENT_DOWNLOADS := by
  induction h with
  | init => rfl
  | step h hs ih =>
    cases hs with
    | submit o t q loops sem q2 loops2 hq hl =>
      subst hl
      split
      · simp [countRunning, isRunning, List.countP_append,
          List.countP_cons] at ih ⊢
        omega
      · exact ih
    | pop o t rest q l1 l2 sem hq =>
      simp [countRunning, isRunning, List.countP_append,
        List.countP_cons] at ih ⊢
      omega
    | exitLoop o q l1 l2 sem hq =>
      simp [countRunning, isRunning, List.countP_append,
        List.countP_cons] at ih ⊢
      omega
    | acquire o t q l1 l2 sem hs =>
      simp [countRunning, isRunning, List.countP_append,
        List.countP_cons] at ih ⊢
      omega
    | finish o t q l1 l2 sem =>
      simp [countRunning, isRunning, List.countP_append,
        List.countP_cons] at ih ⊢
      omega
    | wake o q l1 l2 sem =>
      simp [countRunning, isRunning, List.countP_append,
        List.countP_cons] at ih ⊢
      omega
    | cancel o q loops sem =>
      exact ih

/-- C1.  In every reachable scheduler state — any number of owners
submitting, cancelling and progressing in any interleaving — the number of
tasks simultaneously inside the acquisition pipeline (holding a
`DOWNLOAD_SEMAPHORE` slot, bot.py 292-295) never exceeds the configured pool
capacity `GLOBAL_MAX_CONCURRENT_DOWNLOADS = 3` (bot.py 61, 67). -/
theorem spec_C1_concurrency_bound {s : SchedState} (h : Reachable s) :
    countRunning s.loops ≤ GLOBAL_MAX_CONCURRENT_DOWNLOADS := by
  have hinv := sched_invariant h
  omega

/-- Helper: one submission by owner `"u"` followed by the loop popping the
only task reaches `drainedState` — the queue entry of `"u"` is empty but
still present in the map. -/
theorem drainedState_reachable : Reachable drainedState := by
  have h1 : Reachable ⟨[("u", [1])], [("u", Phase.atHead)], 3⟩ :=
    Reachable.step Reachable.init
      (Step.submit "u" 1 [] [] 3 [("u", [1])] [("u", Phase.atHead)]
        (by decide) (by decide))
  exact Reachable.step h1
    (Step.pop "u" 1 [] [("u", [1])] [] [] 3 (by decide))

/-- Helper: the interleaving that makes two tasks of one owner run at once.
Owner `"u"` submits task 1; the spawned loop pops it and acquires a slot;
while task 1 is still inside the pipeline `"u"` submits task 2 — the queue
entry holds a single element again, so `queue_download`'s
`len(DOWNLOAD_QUEUE[user]) == 1` test (bot.py 333) spawns a **second**
`process_queue_for_user` loop for the same owner, which pops task 2 and
acquires a second slot while task 1 is still running. -/
theorem badState_reachable : Reachable badState := by
  have h3 : Reachable ⟨[("u", [])], [("u", Phase.inPipeline 1)], 2⟩ :=
    Reachable.step drainedState_reachable
      (Step.acquire "u" 1 [("u", [])] [] [] 3 (by norm_num))
  have h4 : Reachable ⟨[("u", [2])],
      [("u", Phase.inPipeline 1), ("u", Phase.atHead)], 2⟩ :=
    Reachable.step h3
      (Step.submit "u" 2 [("u", [])] [("u", Phase.inPipeline 1)] 2
        [("u", [2])] [("u", Phase.inPipeline 1), ("u", Phase.atHead)]
        (by decide) (by decide))
  have h5 : Reachable ⟨[("u", [])],
      [("u", Phase.inPipeline 1), ("u", Phase.waitSem 2)], 2⟩ :=
    Reachable.step h4
      (Step.pop "u" 2 [] [("u", [2])] [("u", Phase.inPipeline 1)] [] 2
        (by decide))
  exact Reachable.step h5
    (Step.acquire "u" 2 [("u", [])] [("u", Phase.inPipeline 1)] [] 2
      (by norm_num))

/-- C1 witness: the invariant instantiated at a concrete reachable state in
which two pipeline executions hold slots. -/
theorem spec_C1_witness :
    countRunning badState.loops ≤ GLOBAL_MAX_CONCURRENT_DOWNLOADS :=
  spec_C1_concurrency_bound badState_reachable

/-- C2.  The claim (and the source comment "If the queue processor for this
user is not running, start it", bot.py 332) requires that tasks of a single
owner never overlap in execution.  The code instead spawns a processor
whenever the owner's list length equals 1 after an append (bot.py 333-334);
when the owner's previous task was already popped and is still executing,
a fresh submission makes the length 1 again and a second concurrent loop is
spawned for the same owner: the state `badState`, in which tasks 1 and 2 of
owner `"u"` are simultaneously inside the pipeline, is reachable. -/
theorem spec_C2_owner_overlap :
    Reachable badState ∧ ownerRunning badState.loops "u" = 2 :=
  ⟨badState_reachable, by decide⟩

/-- C9 counterexample.  The claim says the owner's entry is removed from the
map whenever it becomes empty.  After the single task of owner `"u"` is
dequeued (`pop(0)`, bot.py 289, followed by the save), the reachable state
`drainedState` still contains the entry of `"u"`, now mapping to the empty
list — neither `process_queue_for_user` nor `cancel_handler` ever executes
`del DOWNLOAD_QUEUE[owner]`. -/
theorem spec_C9_counterexample :
    Reachable drainedState ∧ qlookup drainedState.queue "u" = some [] :=
  ⟨drainedState_reachable, by decide⟩

/-- C9 as amended: an owner's entry is created (at the latest) by that
owner's submission, but once present it is never removed by any scheduler
step — dequeueing the last task and cancelling both leave an empty entry
in the map. -/
theorem spec_C9_amended (a : Act) (s s2 : SchedState) (h : Step a s s2)
    (o : String) :
    (qlookup s.queue o ≠ none → qlookup s2.queue o ≠ none)
    ∧ (∀ t, a = Act.submit o t → qlookup s2.queue o ≠ none) := by
  have keep : ∀ (q : List (String × List ℕ)) (o2 : String) (v : List ℕ),
      qlookup q o ≠ none → qlookup (qset q o2 v) o ≠ none := by
    intro q o2 v hne
    by_cases he : o = o2
    · subst he; rw [qlookup_qset_self]; simp
    · rw [qlookup_qset_ne q o2 o v he]; exact hne
  cases h with
  | submit o2 t q loops sem q2 loops2 hq hl =>
    subst hq
    constructor
    · exact fun hne => keep q o2 _ hne
    · intro t2 ha
      cases ha
      rw [qlookup_qset_self]
      simp
  | pop o2 t rest q l1 l2 sem hq =>
    exact ⟨fun hne => keep q o2 _ hne, fun t2 ha => Act.noConfusion ha⟩
  | exitLoop o2 q l1 l2 sem hq =>
    exact ⟨fun hne => hne, fun t2 ha => Act.noConfusion ha⟩
  | acquire o2 t q l1 l2 sem hs =>
    exact ⟨fun hne => hne, fun t2 ha => Act.noConfusion ha⟩
  | finish o2 t q l1 l2 sem =>
    exact ⟨fun hne => hne, fun t2 ha => Act.noConfusion ha⟩
  | wake o2 q l1 l2 sem =>
    exact ⟨fun hne => hne, fun t2 ha => Act.noConfusion ha⟩
  | cancel o2 q loops sem =>
    refine ⟨?_, fun t2 ha => Act.noConfusion ha⟩
    intro hne
    unfold cancel_handler
    split
    · exact keep q o2 [] hne
    · exact hne

/-- C9 witness: after a concrete submission step by owner `"u"`, the map has
an entry for `"u"`. -/
theorem spec_C9_witness :
    qlookup ([("u", [1])] : List (String × List ℕ)) "u" ≠ none :=
  (spec_C9_amended (Act.submit "u" 1) initState
    ⟨[("u", [1])], [("u", Phase.atHead)], 3⟩
    (Step.submit "u" 1 [] [] 3 [("u", [1])] [("u", Phase.atHead)]
      (by decide) (by decide)) "u").2 1 rfl
